import Mathlib

/-!
Verification of the AstroBot chart engine (`astro_calc.py`, `app.py`).

The development embeds the Python source shallowly in Lean:

* Machine floats are idealized as exact rationals (`ℚ`); Python ints are `ℤ`.
* `datetime`/`timedelta` arithmetic is modelled by the proleptic-Gregorian
  ordinal conversions of CPython's `datetime` module (`_ymd2ord`, `_ord2ymd`),
  proved to be mutually inverse below.
* The Swiss Ephemeris provider (`swe.calc_ut`, `swe.houses`) is an external
  native library; it is embedded as an abstract function record `Ephemeris`,
  and `swe.julday` is modelled from the specification.
* Python dict results of the three rules are embedded as association lists
  over a `PyVal` value type.
-/

/-! ## CPython proleptic-Gregorian calendar (`datetime` module internals)

`AstroCalc._compute_julian_day` subtracts `timedelta(hours=tz)` from a
`datetime`.  CPython implements that arithmetic through the ordinal
conversions `_ymd2ord` / `_ord2ymd` which we reproduce here over `ℤ`
(Python `divmod` is floor division, which is `Int`'s `/` and `%`). -/

/-- CPython `datetime._is_leap`. -/
def isLeap (y : ℤ) : Prop := y % 4 = 0 ∧ (y % 100 ≠ 0 ∨ y % 400 = 0)

instance (y : ℤ) : Decidable (isLeap y) := by unfold isLeap; infer_instance

/-- CPython `datetime._DAYS_IN_MONTH` (February as in a non-leap year). -/
def dimTable (m : ℤ) : ℤ :=
  if m = 1 then 31 else if m = 2 then 28 else if m = 3 then 31 else if m = 4 then 30
  else if m = 5 then 31 else if m = 6 then 30 else if m = 7 then 31 else if m = 8 then 31
  else if m = 9 then 30 else if m = 10 then 31 else if m = 11 then 30 else 31

/-- CPython `datetime._DAYS_BEFORE_MONTH`. -/
def dbmTable (m : ℤ) : ℤ :=
  if m = 1 then 0 else if m = 2 then 31 else if m = 3 then 59 else if m = 4 then 90
  else if m = 5 then 120 else if m = 6 then 151 else if m = 7 then 181 else if m = 8 then 212
  else if m = 9 then 243 else if m = 10 then 273 else if m = 11 then 304 else 334

/-- CPython `datetime._days_in_month`. -/
def daysInMonth (y m : ℤ) : ℤ := if m = 2 ∧ isLeap y then 29 else dimTable m

/-- CPython `datetime._days_before_year`. -/
def daysBeforeYear (y : ℤ) : ℤ := (y-1)*365 + (y-1)/4 - (y-1)/100 + (y-1)/400

/-- CPython `datetime._ymd2ord`: day ordinal in the proleptic Gregorian
calendar, with `0001-01-01` having ordinal 1. -/
def ymd2ord (y m d : ℤ) : ℤ :=
  daysBeforeYear y + dbmTable m + (if 2 < m ∧ isLeap y then 1 else 0) + d

/-- CPython `_ord2ymd`: `n400, n = divmod(n - 1, _DI400Y)`. -/
def n400 (n : ℤ) : ℤ := (n-1) / 146097

/-- Remainder of `_ord2ymd` after the 400-year step. -/
def nA (n : ℤ) : ℤ := (n-1) % 146097

/-- CPython `_ord2ymd`: `n100, n = divmod(n, _DI100Y)`. -/
def n100 (n : ℤ) : ℤ := nA n / 36524

/-- Remainder after the century step. -/
def nB (n : ℤ) : ℤ := nA n % 36524

/-- CPython `_ord2ymd`: `n4, n = divmod(n, _DI4Y)`. -/
def n4 (n : ℤ) : ℤ := nB n / 1461

/-- Remainder after the 4-year step. -/
def nC (n : ℤ) : ℤ := nB n % 1461

/-- CPython `_ord2ymd`: `n1, n = divmod(n, 365)`. -/
def n1 (n : ℤ) : ℤ := nC n / 365

/-- Day within the candidate year (CPython's final `n`). -/
def nD (n : ℤ) : ℤ := nC n % 365

/-- CPython `_ord2ymd`: `year = n400*400 + 1 + n100*100 + n4*4 + n1`. -/
def yearRaw (n : ℤ) : ℤ := n400 n * 400 + 1 + n100 n * 100 + n4 n * 4 + n1 n

/-- CPython `_ord2ymd`: `leap_year = n1 == 3 and (n4 != 24 or n100 == 3)`. -/
def leapB (n : ℤ) : Bool := (n1 n == 3) && ((n4 n != 24) || (n100 n == 3))

/-- CPython `_ord2ymd`: `month = (n + 50) >> 5`. -/
def monthEst (rest : ℤ) : ℤ := (rest + 50) / 32

/-- CPython `_ord2ymd`: `preceding = _DAYS_BEFORE_MONTH[month] + (month > 2 and leap_year)`. -/
def precedingEst (rest : ℤ) (leap : Bool) : ℤ :=
  dbmTable (monthEst rest) + (if 2 < monthEst rest ∧ leap then 1 else 0)

/-- CPython `_ord2ymd`: the `month -= 1` correction when `preceding > n`. -/
def monthFix (rest : ℤ) (leap : Bool) : ℤ :=
  if rest < precedingEst rest leap then monthEst rest - 1 else monthEst rest

/-- CPython `_ord2ymd`: the matching
`preceding -= _DAYS_IN_MONTH[month] + (month == 2 and leap_year)` correction. -/
def precedingFix (rest : ℤ) (leap : Bool) : ℤ :=
  if rest < precedingEst rest leap then
    precedingEst rest leap -
      (dimTable (monthFix rest leap) + (if monthFix rest leap = 2 ∧ leap then 1 else 0))
  else precedingEst rest leap

/-- CPython `datetime._ord2ymd`: inverse of `ymd2ord`, via nested floor divmods. -/
def ord2ymd (n : ℤ) : ℤ × ℤ × ℤ :=
  if n1 n = 4 ∨ n100 n = 4 then (yearRaw n - 1, 12, 31)
  else (yearRaw n, monthFix (nD n) (leapB n), nD n - precedingFix (nD n) (leapB n) + 1)

theorem dimE1 : dimTable 1 = 31 := by norm_num [dimTable]
theorem dimE2 : dimTable 2 = 28 := by norm_num [dimTable]
theorem dimE3 : dimTable 3 = 31 := by norm_num [dimTable]
theorem dimE4 : dimTable 4 = 30 := by norm_num [dimTable]
theorem dimE5 : dimTable 5 = 31 := by norm_num [dimTable]
theorem dimE6 : dimTable 6 = 30 := by norm_num [dimTable]
theorem dimE7 : dimTable 7 = 31 := by norm_num [dimTable]
theorem dimE8 : dimTable 8 = 31 := by norm_num [dimTable]
theorem dimE9 : dimTable 9 = 30 := by norm_num [dimTable]
theorem dimE10 : dimTable 10 = 31 := by norm_num [dimTable]
theorem dimE11 : dimTable 11 = 30 := by norm_num [dimTable]
theorem dimE12 : dimTable 12 = 31 := by norm_num [dimTable]
theorem dbmE1 : dbmTable 1 = 0 := by norm_num [dbmTable]
theorem dbmE2 : dbmTable 2 = 31 := by norm_num [dbmTable]
theorem dbmE3 : dbmTable 3 = 59 := by norm_num [dbmTable]
theorem dbmE4 : dbmTable 4 = 90 := by norm_num [dbmTable]
theorem dbmE5 : dbmTable 5 = 120 := by norm_num [dbmTable]
theorem dbmE6 : dbmTable 6 = 151 := by norm_num [dbmTable]
theorem dbmE7 : dbmTable 7 = 181 := by norm_num [dbmTable]
theorem dbmE8 : dbmTable 8 = 212 := by norm_num [dbmTable]
theorem dbmE9 : dbmTable 9 = 243 := by norm_num [dbmTable]
theorem dbmE10 : dbmTable 10 = 273 := by norm_num [dbmTable]
theorem dbmE11 : dbmTable 11 = 304 := by norm_num [dbmTable]
theorem dbmE12 : dbmTable 12 = 334 := by norm_num [dbmTable]

set_option maxHeartbeats 1000000 in
/-- The within-year part of `_ord2ymd` is correct: the fixed-up month and day
are a valid month/day pair whose days-before count reconstructs the day of
year. -/
theorem monthPart (rest : ℤ) (leap : Bool) (hr : 0 ≤ rest) (hr' : rest ≤ 364) :
    1 ≤ monthFix rest leap ∧ monthFix rest leap ≤ 12 ∧
    1 ≤ rest - precedingFix rest leap + 1 ∧
    rest - precedingFix rest leap + 1 ≤
      (if monthFix rest leap = 2 ∧ leap then 29 else dimTable (monthFix rest leap)) ∧
    dbmTable (monthFix rest leap) + (if 2 < monthFix rest leap ∧ leap then 1 else 0) +
      (rest - precedingFix rest leap + 1) = rest + 1 := by
  unfold precedingFix monthFix precedingEst
  set m := monthEst rest with hm
  clear_value m
  unfold monthEst at hm
  have hm1 : 1 ≤ m := by omega
  have hm2 : m ≤ 12 := by omega
  cases leap <;> interval_cases m <;>
    (try simp only [dimE1, dimE2, dimE3, dimE4, dimE5, dimE6, dimE7, dimE8, dimE9, dimE10,
      dimE11, dimE12, dbmE1, dbmE2, dbmE3, dbmE4, dbmE5, dbmE6, dbmE7, dbmE8, dbmE9, dbmE10,
      dbmE11, dbmE12, Int.reduceSub, Int.reduceAdd, Int.reduceLT, Int.reduceEq,
      Bool.false_eq_true, eq_self_iff_true, and_true, true_and, and_false, false_and,
      if_true, if_false]) <;>
    (try split_ifs) <;>
    (try simp only [dimE1, dimE2, dimE3, dimE4, dimE5, dimE6, dimE7, dimE8, dimE9, dimE10,
      dimE11, dimE12, dbmE1, dbmE2, dbmE3, dbmE4, dbmE5, dbmE6, dbmE7, dbmE8, dbmE9, dbmE10,
      dbmE11, dbmE12, Int.reduceSub, Int.reduceAdd]) <;> omega

set_option maxHeartbeats 2000000 in
/-- CPython's ordinal/calendar conversion is a bijection: `_ord2ymd` yields a
valid month and day, and `_ymd2ord` maps the triple back to the ordinal. -/
theorem ord2ymd_spec (n : ℤ) :
    1 ≤ (ord2ymd n).2.1 ∧ (ord2ymd n).2.1 ≤ 12 ∧
    1 ≤ (ord2ymd n).2.2 ∧ (ord2ymd n).2.2 ≤ daysInMonth (ord2ymd n).1 (ord2ymd n).2.1 ∧
    ymd2ord (ord2ymd n).1 (ord2ymd n).2.1 (ord2ymd n).2.2 = n := by
  have h1 : n - 1 = 146097 * n400 n + nA n := by unfold n400 nA; omega
  have h1b : 0 ≤ nA n ∧ nA n < 146097 := by unfold nA; omega
  have h2 : nA n = 36524 * n100 n + nB n := by unfold n100 nB; omega
  have h2b : 0 ≤ nB n ∧ nB n < 36524 := by unfold nB nA; omega
  have h3 : nB n = 1461 * n4 n + nC n := by unfold n4 nC; omega
  have h3b : 0 ≤ nC n ∧ nC n < 1461 := by unfold nC nB nA; omega
  have h4 : nC n = 365 * n1 n + nD n := by unfold n1 nD; omega
  have h4b : 0 ≤ nD n ∧ nD n < 365 := by unfold nD nC nB nA; omega
  have hYr : yearRaw n = n400 n * 400 + 1 + n100 n * 100 + n4 n * 4 + n1 n := rfl
  simp only [ord2ymd]
  split
  · rename_i hsp
    norm_num [ymd2ord, daysBeforeYear, daysInMonth, dbmTable, dimTable, isLeap]
    rcases hsp with hd4 | hb4
    · have s1 : (yearRaw n - 1 - 1) / 4 = 100 * n400 n + 25 * n100 n + n4 n := by
        rw [hYr]; omega
      have s2 : (yearRaw n - 1 - 1) / 100 = 4 * n400 n + n100 n := by rw [hYr]; omega
      have s3 : (yearRaw n - 1 - 1) / 400 = n400 n := by rw [hYr]; omega
      have m1 : (yearRaw n - 1) % 4 = 0 := by rw [hYr]; omega
      have m2 : (yearRaw n - 1) % 100 ≠ 0 := by rw [hYr]; omega
      split_ifs <;> omega
    · have s1 : (yearRaw n - 1 - 1) / 4 = 100 * n400 n + 99 := by rw [hYr]; omega
      have s2 : (yearRaw n - 1 - 1) / 100 = 4 * n400 n + 3 := by rw [hYr]; omega
      have s3 : (yearRaw n - 1 - 1) / 400 = n400 n := by rw [hYr]; omega
      have m1 : (yearRaw n - 1) % 4 = 0 := by rw [hYr]; omega
      have m3 : (yearRaw n - 1) % 400 = 0 := by rw [hYr]; omega
      split_ifs <;> omega
  · rename_i hsp
    have e1 : (yearRaw n - 1) / 4 = 100 * n400 n + 25 * n100 n + n4 n := by rw [hYr]; omega
    have e2 : (yearRaw n - 1) / 100 = 4 * n400 n + n100 n := by rw [hYr]; omega
    have e3 : (yearRaw n - 1) / 400 = n400 n := by rw [hYr]; omega
    have i4 : (yearRaw n) % 4 = 0 ↔ n1 n = 3 := by rw [hYr]; omega
    have i100 : (yearRaw n) % 100 = 0 ↔ (n4 n = 24 ∧ n1 n = 3) := by rw [hYr]; omega
    have i400 : (yearRaw n) % 400 = 0 ↔ (n100 n = 3 ∧ n4 n = 24 ∧ n1 n = 3) := by
      rw [hYr]; omega
    have hiff : isLeap (yearRaw n) ↔ (leapB n = true) := by
      simp only [isLeap, leapB, i4, i100, i400, Bool.and_eq_true, beq_iff_eq,
        Bool.or_eq_true, bne_iff_ne, ne_eq]
      omega
    obtain ⟨mp1, mp2, mp3, mp4, mp5⟩ :=
      monthPart (nD n) (leapB n) (by omega) (by omega)
    dsimp only
    simp only [ymd2ord, daysBeforeYear, daysInMonth, hiff]
    refine ⟨mp1, mp2, mp3, mp4, ?_⟩
    omega

/-! ## Python datetime values and timedelta subtraction -/

/-- The `datetime` fields the source reads (`year month day hour minute`); the
source never reads seconds or microseconds. -/
structure PyDatetime where
  year : ℤ
  month : ℤ
  day : ℤ
  hour : ℤ
  minute : ℤ
deriving DecidableEq

/-- Validity check performed by the `datetime(year, month, day, hour, minute)`
constructor on line 144 of `astro_calc.py` (CPython raises `ValueError`
otherwise; `MINYEAR = 1`, `MAXYEAR = 9999`). -/
def datetimeValid (y mo d h mi : ℤ) : Prop :=
  1 ≤ y ∧ y ≤ 9999 ∧ 1 ≤ mo ∧ mo ≤ 12 ∧ 1 ≤ d ∧ d ≤ daysInMonth y mo ∧
  0 ≤ h ∧ h ≤ 23 ∧ 0 ≤ mi ∧ mi ≤ 59

instance (y mo d h mi : ℤ) : Decidable (datetimeValid y mo d h mi) := by
  unfold datetimeValid; infer_instance

/-- `dt_local - timedelta(hours=tz)` from line 145 of `astro_calc.py`:
CPython subtracts on the (ordinal, time-of-day) representation, checks
`0 < delta.days <= _MAXORDINAL` (with `_MAXORDINAL = 3652059`, the ordinal of
9999-12-31) — raising `OverflowError` otherwise, `none` here — and converts
back with `_ord2ymd`.  The duration is exact rational arithmetic, which
idealizes `timedelta`'s microsecond quantization; any sub-minute remainder
lands in the second/microsecond fields, which the source never reads, so the
result keeps only the five fields read by the code. -/
def dtSub (dt : PyDatetime) (tzHours : ℚ) : Option PyDatetime :=
  let T : ℚ := ((ymd2ord dt.year dt.month dt.day * 1440 + dt.hour * 60 + dt.minute : ℤ) : ℚ)
    - tzHours * 60
  let dayOrd : ℤ := ⌊T / 1440⌋
  if 0 < dayOrd ∧ dayOrd ≤ 3652059 then
    let R : ℚ := T - (dayOrd : ℚ) * 1440
    let h : ℤ := ⌊R / 60⌋
    let mi : ℤ := ⌊R - (h : ℚ) * 60⌋
    let ymd := ord2ymd dayOrd
    some ⟨ymd.1, ymd.2.1, ymd.2.2, h, mi⟩
  else none

/-! ## Python string parsing used by `_compute_julian_day` -/

/-- Python `str.split(sep)` for a one-character separator, over the character
list of the string. -/
def splitOnChar (sep : Char) : List Char → List (List Char)
  | [] => [[]]
  | c :: cs =>
    if c = sep then [] :: splitOnChar sep cs
    else match splitOnChar sep cs with
      | [] => [[c]]
      | g :: gs => (c :: g) :: gs

/-- Drop leading whitespace. -/
def dropSpaces : List Char → List Char
  | [] => []
  | c :: cs => if c.isWhitespace then dropSpaces cs else c :: cs

/-- Strip whitespace from both ends, as Python `int()` does before parsing. -/
def pyStrip (l : List Char) : List Char :=
  (dropSpaces (dropSpaces l).reverse).reverse

/-- A nonempty all-digit character list parsed as a natural number. -/
def pyDigits (l : List Char) : Option ℕ :=
  if l ≠ [] ∧ l.all (fun c => c.isDigit) then
    some (l.foldl (fun a c => 10 * a + (c.toNat - 48)) 0)
  else none

/-- Python built-in `int(str)`: optional surrounding whitespace, optional
sign, then decimal digits; anything else raises `ValueError` (`none` here).
Digit-group underscores are not modelled. -/
def pyIntL (l : List Char) : Option ℤ :=
  match pyStrip l with
  | '-' :: ds => (pyDigits ds).map (fun v => -(v : ℤ))
  | '+' :: ds => (pyDigits ds).map (fun v => (v : ℤ))
  | ds => (pyDigits ds).map (fun v => (v : ℤ))

/-- Line 141 of `astro_calc.py`:
`year, month, day = [int(x) for x in self.birth['date'].split('-')]`.
`none` when an `int()` call or the 3-way unpacking raises `ValueError`. -/
def parseYMD (s : String) : Option (ℤ × ℤ × ℤ) :=
  match (splitOnChar '-' s.data).mapM pyIntL with
  | some [y, mo, d] => some (y, mo, d)
  | _ => none

/-- Line 142 of `astro_calc.py`:
`hour, minute = [int(x) for x in self.birth['time'].split(':')]`. -/
def parseHM (s : String) : Option (ℤ × ℤ) :=
  match (splitOnChar ':' s.data).mapM pyIntL with
  | some [h, mi] => some (h, mi)
  | _ => none

/-! ## The `AstroCalc` constructor -/

/-- The error kinds the source can raise while building a chart: Python's
generic `ValueError` (from `int()`, from tuple unpacking, or from the
`datetime` constructor) and `OverflowError` (from `datetime` minus
`timedelta` when the result leaves the supported calendar range).  The source
defines no error kinds of its own. -/
inductive PyError where
  | valueError : PyError
  | overflowError : PyError
deriving DecidableEq

/-- The `birth` dictionary handed to `AstroCalc.__init__`: `date` and `time`
strings, numeric `lat`/`lon`, and an optional `tz` entry (the code reads it
with `self.birth.get('tz', 0.0)`). -/
structure Birth where
  date : String
  time : String
  lat : ℚ
  lon : ℚ
  tz : Option ℚ

/-- Modelled from the spec: `swe.julday` (Swiss Ephemeris, an external native
library, not part of this repository) converts a Gregorian calendar date plus
fractional hours of universal time to a continuous Julian Day via the standard
Gregorian-calendar formula; equivalently, proleptic-Gregorian ordinal plus
1721424.5 plus hours over 24. -/
def sweJulday (y m d : ℤ) (hours : ℚ) : ℚ :=
  (ymd2ord y m d : ℚ) + 1721424.5 + hours / 24

/-- The state an `AstroCalc` instance carries after `__init__`:
`self.julian_day`, `self.lat`, `self.lon`. -/
structure AstroCalc where
  julian_day : ℚ
  lat : ℚ
  lon : ℚ
deriving DecidableEq

/-- `AstroCalc._compute_julian_day` (lines 140-148 of `astro_calc.py`):
parse the date and time strings, default the timezone offset to `0.0` when
absent, build the local `datetime` (raising `ValueError` when impossible),
subtract `timedelta(hours=tz)` — which raises `OverflowError` when the
result leaves the supported calendar range — and call
`swe.julday(dt_ut.year, dt_ut.month, dt_ut.day, dt_ut.hour + dt_ut.minute/60.0)`. -/
def computeJulianDay (b : Birth) : Except PyError AstroCalc :=
  match parseYMD b.date with
  | none => Except.error PyError.valueError
  | some (y, mo, d) =>
    match parseHM b.time with
    | none => Except.error PyError.valueError
    | some (h, mi) =>
      let tz : ℚ := b.tz.getD 0
      if datetimeValid y mo d h mi then
        match dtSub ⟨y, mo, d, h, mi⟩ tz with
        | none => Except.error PyError.overflowError
        | some dtUT =>
          Except.ok ⟨sweJulday dtUT.year dtUT.month dtUT.day
            ((dtUT.hour : ℚ) + (dtUT.minute : ℚ) / 60), b.lat, b.lon⟩
      else Except.error PyError.valueError

/-- Decision procedure for the inputs on which `_compute_julian_day`
succeeds: date and time strings parse and the local datetime is valid. -/
def validParse (b : Birth) : Bool :=
  match parseYMD b.date, parseHM b.time with
  | some (y, mo, d), some (h, mi) => decide (datetimeValid y mo d h mi)
  | _, _ => false

/-! ## Ephemeris provider and the chart computations -/

/-- The seven tracked bodies of the `PLANETS` dictionary. -/
inductive Planet where
  | Sun | Moon | Mars | Mercury | Jupiter | Venus | Saturn
deriving DecidableEq

/-- The external Swiss Ephemeris provider: `swe.calc_ut(jd, pid)[0][0]` (the
ecliptic longitude of a body) and `swe.houses(jd, lat, lon)[1][0]` (the
ascendant entry `ascmc[0]`).  The core treats it as a black box, so it is a
record of arbitrary functions. -/
structure Ephemeris where
  calc_ut : ℚ → Planet → ℚ
  houses_ascmc0 : ℚ → ℚ → ℚ → ℚ

/-- Python float `%` (used as `% 360.0`): for a positive modulus the result is
`x - y*floor(x/y)`, in `[0, y)`. -/
def pymod (x y : ℚ) : ℚ := x - y * ⌊x / y⌋

/-- `ZODIAC` (line 131 of `astro_calc.py`). -/
def ZODIAC : List String :=
  ["Aries", "Taurus", "Gemini", "Cancer", "Leo", "Virgo", "Libra", "Scorpio",
   "Sagittarius", "Capricorn", "Aquarius", "Pisces"]

/-- `AstroCalc.planet_longitudes` (lines 150-156): each raw longitude from the
provider is stored as `lon % 360.0`. -/
def planet_longitudes (ep : Ephemeris) (ac : AstroCalc) : Planet → ℚ :=
  fun p => pymod (ep.calc_ut ac.julian_day p) 360

/-- `AstroCalc.ascendant` (lines 158-161): `ascmc[0] % 360.0`. -/
def ascendant (ep : Ephemeris) (ac : AstroCalc) : ℚ :=
  pymod (ep.houses_ascmc0 ac.julian_day ac.lat ac.lon) 360

/-- `AstroCalc.moon_sign` (lines 163-166): `sign_index = int(moon_lon // 30) % 12`,
then `(ZODIAC[sign_index], moon_lon)`. -/
def moon_sign (ep : Ephemeris) (ac : AstroCalc) : String × ℚ :=
  let moon_lon := planet_longitudes ep ac Planet.Moon
  let sign_index : ℤ := ⌊moon_lon / 30⌋ % 12
  (ZODIAC.getD sign_index.toNat "", moon_lon)

/-- `AstroCalc.house_of_planet` (lines 168-172): `diff = (planet_long - asc) % 360.0`,
`house = int(diff // 30) + 1`. -/
def house_of_planet (ep : Ephemeris) (ac : AstroCalc) (planet_long : ℚ) : ℤ :=
  let asc := ascendant ep ac
  let diff := pymod (planet_long - asc) 360
  ⌊diff / 30⌋ + 1

/-- The dictionary returned by `AstroCalc.compute_all` (lines 174-186). -/
structure Chart where
  julian_day : ℚ
  planetary_longitudes : Planet → ℚ
  ascendant : ℚ
  houses : Planet → ℤ
  moon_sign : String
  moon_longitude : ℚ

/-- `AstroCalc.compute_all` (lines 174-186). -/
def compute_all (ep : Ephemeris) (ac : AstroCalc) : Chart :=
  ⟨ac.julian_day, planet_longitudes ep ac, ascendant ep ac,
   fun p => house_of_planet ep ac (planet_longitudes ep ac p),
   (moon_sign ep ac).1, (moon_sign ep ac).2⟩

/-! ## Rule results as Python dictionaries -/

/-- Values stored in the rule-result dictionaries. -/
inductive PyVal where
  | str (s : String)
  | num (q : ℚ)
  | bool (b : Bool)
  | int (z : ℤ)
deriving DecidableEq

/-- Python `f"{x:.3f}"` on our exact rationals: three decimals.  The rounding
of the exact value is round-half-up here; CPython formats the nearest binary
double with round-half-even, which agrees except on exact half-thousandth
ties. -/
def fmt3 (q : ℚ) : String :=
  let n : ℤ := round (q * 1000)
  let sign : String := if n < 0 then "-" else ""
  let a : ℕ := n.natAbs
  let fp : ℕ := a % 1000
  let pad : String := if fp < 10 then "00" else if fp < 100 then "0" else ""
  sign ++ toString (a / 1000) ++ "." ++ pad ++ toString fp

/-- `ManglikRule.TRIGGER_HOUSES = {1,2,4,7,8,12}` (line 189). -/
def ManglikRule.TRIGGER_HOUSES : List ℤ := [1, 2, 4, 7, 8, 12]

/-- `ManglikRule.check` (lines 193-200).  The explanation embeds
`sorted(list(TRIGGER_HOUSES))`, which prints as `[1, 2, 4, 7, 8, 12]`. -/
def ManglikRule.check (ep : Ephemeris) (ac : AstroCalc) : List (String × PyVal) :=
  let mars_lon := planet_longitudes ep ac Planet.Mars
  let mars_house := house_of_planet ep ac mars_lon
  let is_manglik : Bool := decide (mars_house ∈ ManglikRule.TRIGGER_HOUSES)
  let conclusion : String := if is_manglik then "Manglik" else "Not Manglik"
  let explanation : String := "Mars longitude = " ++ fmt3 mars_lon ++ "째 => house " ++
    toString mars_house ++ ". Manglik houses: [1, 2, 4, 7, 8, 12]."
  [("conclusion", PyVal.str conclusion), ("explanation", PyVal.str explanation),
   ("trigger", PyVal.bool is_manglik), ("mars_longitude", PyVal.num mars_lon),
   ("mars_house", PyVal.int mars_house)]

/-- `MoonSignRule.get` (lines 205-208). -/
def MoonSignRule.get (ep : Ephemeris) (ac : AstroCalc) : List (String × PyVal) :=
  let sm := moon_sign ep ac
  [("moon_sign", PyVal.str sm.1), ("moon_longitude", PyVal.num sm.2),
   ("explanation", PyVal.str ("Moon longitude = " ++ fmt3 sm.2 ++ "째 => Moon in " ++
     sm.1 ++ "."))]

/-- `VimshottariDasha.SEQUENCE` (line 211). -/
def VimshottariDasha.SEQUENCE : List String :=
  ["Ketu", "Venus", "Sun", "Moon", "Mars", "Rahu", "Jupiter", "Saturn", "Mercury"]

/-- `VimshottariDasha.LENGTHS` (line 212), as a dictionary lookup. -/
def VimshottariDasha.LENGTHS : String → ℚ := fun lord =>
  if lord = "Ketu" then 7 else if lord = "Venus" then 20 else if lord = "Sun" then 6
  else if lord = "Moon" then 10 else if lord = "Mars" then 7 else if lord = "Rahu" then 18
  else if lord = "Jupiter" then 16 else if lord = "Saturn" then 19
  else if lord = "Mercury" then 17 else 0

/-- `nak_deg = 360.0 / 27.0` (line 219). -/
def VimshottariDasha.nak_deg : ℚ := 360 / 27

/-- `nak_index = int(moon_lon // nak_deg)` (line 220). -/
def VimshottariDasha.nak_index (moon_lon : ℚ) : ℤ := ⌊moon_lon / VimshottariDasha.nak_deg⌋

/-- `deg_into_nak = moon_lon - (nak_index * nak_deg)` (line 221). -/
def VimshottariDasha.deg_into_nak (moon_lon : ℚ) : ℚ :=
  moon_lon - (VimshottariDasha.nak_index moon_lon : ℚ) * VimshottariDasha.nak_deg

/-- `prop = deg_into_nak / nak_deg` (line 222). -/
def VimshottariDasha.prop (moon_lon : ℚ) : ℚ :=
  VimshottariDasha.deg_into_nak moon_lon / VimshottariDasha.nak_deg

/-- `rot = nak_index % len(seq)` (line 224); `len(SEQUENCE) = 9`. -/
def VimshottariDasha.rot (moon_lon : ℚ) : ℤ := VimshottariDasha.nak_index moon_lon % 9

/-- `seq = seq[rot:] + seq[:rot]` (line 225). -/
def VimshottariDasha.rotated (moon_lon : ℚ) : List String :=
  VimshottariDasha.SEQUENCE.drop (VimshottariDasha.rot moon_lon).toNat ++
    VimshottariDasha.SEQUENCE.take (VimshottariDasha.rot moon_lon).toNat

/-- `first_lord = seq[0]` (line 226). -/
def VimshottariDasha.first_lord (moon_lon : ℚ) : String :=
  (VimshottariDasha.rotated moon_lon).getD 0 ""

/-- `remaining_years_first = LENGTHS[first_lord] * (1 - prop)` (line 227). -/
def VimshottariDasha.remaining_years_first (moon_lon : ℚ) : ℚ :=
  VimshottariDasha.LENGTHS (VimshottariDasha.first_lord moon_lon) *
    (1 - VimshottariDasha.prop moon_lon)

/-- The `explanation` f-string of `current_dasha` (lines 228-229). -/
def VimshottariDasha.explanation (moon_lon : ℚ) : String :=
  "Moon longitude " ++ fmt3 moon_lon ++ "째, nakshatra index " ++
    toString (VimshottariDasha.nak_index moon_lon) ++ ", degree into nakshatra " ++
    fmt3 (VimshottariDasha.deg_into_nak moon_lon) ++ "째. " ++
    "Approx current Mahadasha lord (simplified) = " ++ VimshottariDasha.first_lord moon_lon ++
    ", remaining approx = " ++ fmt3 (VimshottariDasha.remaining_years_first moon_lon) ++
    " years."

/-- The dictionary returned by `VimshottariDasha.current_dasha` (line 230), as
a function of the Moon longitude it reads. -/
def VimshottariDasha.current_dasha_of (moon_lon : ℚ) : List (String × PyVal) :=
  [("mahadasha", PyVal.str (VimshottariDasha.first_lord moon_lon)),
   ("explanation", PyVal.str (VimshottariDasha.explanation moon_lon)),
   ("moon_longitude", PyVal.num moon_lon)]

/-- `VimshottariDasha.current_dasha` (lines 217-230): reads
`planet_longitudes()['Moon']` and applies the computation above. -/
def VimshottariDasha.current_dasha (ep : Ephemeris) (ac : AstroCalc) : List (String × PyVal) :=
  VimshottariDasha.current_dasha_of (planet_longitudes ep ac Planet.Moon)

/-! ## Deterministic test stubs (the spec's swappable test provider) -/

/-- A deterministic stub provider returning the fixed longitude `v` for every
body and ascendant `a`. -/
def stubEph (v a : ℚ) : Ephemeris := ⟨fun _ _ => v, fun _ _ _ => a⟩

/-- An arbitrary `AstroCalc` state for stub computations. -/
def stubCalc : AstroCalc := ⟨0, 0, 0⟩

/-! ## Helper lemmas -/

theorem pymod_nonneg (x y : ℚ) (hy : 0 < y) : 0 ≤ pymod x y := by
  have h := Int.floor_le (x / y)
  have h2 : (⌊x / y⌋ : ℚ) * y ≤ (x / y) * y := mul_le_mul_of_nonneg_right h hy.le
  rw [div_mul_cancel₀ x hy.ne'] at h2
  rw [mul_comm] at h2
  unfold pymod
  linarith

theorem pymod_lt (x y : ℚ) (hy : 0 < y) : pymod x y < y := by
  have h := Int.lt_floor_add_one (x / y)
  have h2 : (x / y) * y < ((⌊x / y⌋ : ℚ) + 1) * y := mul_lt_mul_of_pos_right h hy
  rw [div_mul_cancel₀ x hy.ne'] at h2
  unfold pymod
  nlinarith

theorem pymod_eq_self (x y : ℚ) (hy : 0 < y) (h0 : 0 ≤ x) (h1 : x < y) : pymod x y = x := by
  have hf : ⌊x / y⌋ = 0 := by
    rw [Int.floor_eq_zero_iff]
    exact Set.mem_Ico.mpr ⟨div_nonneg h0 hy.le, (div_lt_one hy).mpr h1⟩
  unfold pymod
  rw [hf]
  push_cast
  ring

/-- Splitting a rational time value into whole days, hours in `[0,23]`, and
minutes in `[0,59]`, with the three floors used by `dtSub`, recovers `⌊T⌋`
total minutes. -/
theorem time_decompose (T : ℚ) :
    1440 * ⌊T / 1440⌋ + 60 * ⌊(T - (⌊T / 1440⌋ : ℚ) * 1440) / 60⌋ +
      ⌊(T - (⌊T / 1440⌋ : ℚ) * 1440) - (⌊(T - (⌊T / 1440⌋ : ℚ) * 1440) / 60⌋ : ℚ) * 60⌋ =
      ⌊T⌋ ∧
    0 ≤ ⌊(T - (⌊T / 1440⌋ : ℚ) * 1440) / 60⌋ ∧ ⌊(T - (⌊T / 1440⌋ : ℚ) * 1440) / 60⌋ ≤ 23 ∧
    0 ≤ ⌊(T - (⌊T / 1440⌋ : ℚ) * 1440) - (⌊(T - (⌊T / 1440⌋ : ℚ) * 1440) / 60⌋ : ℚ) * 60⌋ ∧
    ⌊(T - (⌊T / 1440⌋ : ℚ) * 1440) - (⌊(T - (⌊T / 1440⌋ : ℚ) * 1440) / 60⌋ : ℚ) * 60⌋ ≤ 59 := by
  set D : ℤ := ⌊T / 1440⌋ with hD
  set R : ℚ := T - (D : ℚ) * 1440 with hR
  have hRmod : R = pymod T 1440 := by rw [hR, hD]; unfold pymod; ring
  have hR0 : 0 ≤ R := hRmod ▸ pymod_nonneg T 1440 (by norm_num)
  have hR1 : R < 1440 := hRmod ▸ pymod_lt T 1440 (by norm_num)
  set H : ℤ := ⌊R / 60⌋ with hH
  have hH0 : 0 ≤ H := by rw [hH]; exact Int.floor_nonneg.mpr (div_nonneg hR0 (by norm_num))
  have hH23 : H ≤ 23 := by
    have hlt : R / 60 < 24 := by rw [div_lt_iff₀ (by norm_num : (0:ℚ) < 60)]; linarith
    have := Int.floor_lt.mpr (show R / 60 < ((24 : ℤ) : ℚ) by push_cast; linarith)
    omega
  have hfl : (60 * H : ℚ) ≤ R := by
    have h1 := Int.floor_le (R / 60)
    rw [← hH] at h1
    have h2 := mul_le_mul_of_nonneg_right h1 (by norm_num : (0:ℚ) ≤ 60)
    rw [div_mul_cancel₀ R (by norm_num : (60:ℚ) ≠ 0)] at h2
    linarith
  have hfu : R < 60 * H + 60 := by
    have h1 := Int.lt_floor_add_one (R / 60)
    rw [← hH] at h1
    have h2 := mul_lt_mul_of_pos_right h1 (by norm_num : (0:ℚ) < 60)
    rw [div_mul_cancel₀ R (by norm_num : (60:ℚ) ≠ 0)] at h2
    linarith
  have hM : ⌊R - (H : ℚ) * 60⌋ = ⌊R⌋ - 60 * H := by
    rw [show (H : ℚ) * 60 = ((60 * H : ℤ) : ℚ) by push_cast; ring, Int.floor_sub_int]
  have hRf0 : (60 * H : ℤ) ≤ ⌊R⌋ := Int.le_floor.mpr (by push_cast; linarith)
  have hRf1 : ⌊R⌋ < 60 * H + 60 := Int.floor_lt.mpr (by push_cast; linarith)
  have hRT : ⌊R⌋ = ⌊T⌋ - 1440 * D := by
    rw [hR, show (D : ℚ) * 1440 = ((1440 * D : ℤ) : ℚ) by push_cast; ring, Int.floor_sub_int]
  refine ⟨?_, hH0, hH23, ?_, ?_⟩ <;> rw [hM] <;> omega

/-- Full-duration correctness of the `datetime` subtraction in `dtSub`: when
the subtraction does not overflow, the resulting calendar datetime is
field-valid and its total minutes (via the ordinal) equal the floor of the
local total minutes shifted by the offset. -/
theorem dtSub_spec (dt : PyDatetime) (tz : ℚ) (r : PyDatetime)
    (hsub : dtSub dt tz = some r) :
    ymd2ord r.year r.month r.day * 1440 + r.hour * 60 + r.minute =
      ⌊((ymd2ord dt.year dt.month dt.day * 1440 + dt.hour * 60 + dt.minute : ℤ) : ℚ) -
        tz * 60⌋ ∧
    1 ≤ r.month ∧ r.month ≤ 12 ∧
    1 ≤ r.day ∧ r.day ≤ daysInMonth r.year r.month ∧
    0 ≤ r.hour ∧ r.hour ≤ 23 ∧
    0 ≤ r.minute ∧ r.minute ≤ 59 := by
  obtain ⟨t1, t2, t3, t4, t5⟩ :=
    time_decompose (((ymd2ord dt.year dt.month dt.day * 1440 + dt.hour * 60 + dt.minute :
      ℤ) : ℚ) - tz * 60)
  obtain ⟨o1, o2, o3, o4, o5⟩ :=
    ord2ymd_spec ⌊(((ymd2ord dt.year dt.month dt.day * 1440 + dt.hour * 60 + dt.minute :
      ℤ) : ℚ) - tz * 60) / 1440⌋
  simp only [dtSub] at hsub
  split at hsub
  · injection hsub with hr
    subst hr
    dsimp only
    refine ⟨?_, o1, o2, o3, o4, t2, t3, t4, t5⟩
    rw [o5]
    omega
  · exact absurd hsub (by simp)

theorem seq_rotation : ∀ r : ℕ, r < 9 → ∀ i : ℕ, i < 9 →
    (VimshottariDasha.SEQUENCE.drop r ++ VimshottariDasha.SEQUENCE.take r).getD i "" =
      VimshottariDasha.SEQUENCE.getD ((i + r) % 9) "" := by decide

set_option maxHeartbeats 1000000 in
/-- Range of `_ymd2ord` over the `datetime`-valid dates: every valid
(year 1–9999) calendar date has ordinal between 1 and `_MAXORDINAL =
3652059`, the ordinal of 9999-12-31. -/
theorem ymd2ord_bounds (y mo d : ℤ) (hy : 1 ≤ y) (hy9 : y ≤ 9999)
    (hmo : 1 ≤ mo) (hmo12 : mo ≤ 12) (hd : 1 ≤ d) (hdm : d ≤ daysInMonth y mo) :
    1 ≤ ymd2ord y mo d ∧ ymd2ord y mo d ≤ 3652059 := by
  have p4 : (y - 1) / 4 = 100 * ((y - 1) / 400) + ((y - 1) - 400 * ((y - 1) / 400)) / 4 := by
    omega
  have p100 : (y - 1) / 100 =
      4 * ((y - 1) / 400) + ((y - 1) - 400 * ((y - 1) / 400)) / 100 := by
    omega
  unfold daysInMonth at hdm
  unfold ymd2ord daysBeforeYear
  interval_cases mo <;>
    norm_num [dimTable, dbmTable, isLeap] at hdm ⊢ <;>
    (try split_ifs at hdm ⊢) <;>
    omega

/-! ## Claim theorems -/

/-- C6: for every value returned by the ephemeris provider, every planetary
longitude stored by `planet_longitudes` and the ascendant returned by
`ascendant` lie in `[0, 360)`, because each is normalized mod 360 on
receipt. -/
theorem longitudes_normalized (ep : Ephemeris) (ac : AstroCalc) :
    (∀ p : Planet, 0 ≤ planet_longitudes ep ac p ∧ planet_longitudes ep ac p < 360) ∧
    0 ≤ ascendant ep ac ∧ ascendant ep ac < 360 := by
  constructor
  · intro p
    unfold planet_longitudes
    exact ⟨pymod_nonneg _ 360 (by norm_num), pymod_lt _ 360 (by norm_num)⟩
  · unfold ascendant
    exact ⟨pymod_nonneg _ 360 (by norm_num), pymod_lt _ 360 (by norm_num)⟩

/-- C1 (amended): for every planet longitude L and ascendant A, the house is
`⌊((L − A) mod 360)/30⌋ + 1`, an integer in `[1, 12]`; house 1 begins exactly
at the ascendant degree; and when the ascendant is 0° the identity
`house(L) = ⌊L/30⌋ + 1` holds for `L ∈ [0, 360)` (the chart's longitude
range). -/
theorem house_of_planet_spec (ep : Ephemeris) (ac : AstroCalc) (L : ℚ) :
    house_of_planet ep ac L = ⌊pymod (L - ascendant ep ac) 360 / 30⌋ + 1 ∧
    1 ≤ house_of_planet ep ac L ∧ house_of_planet ep ac L ≤ 12 ∧
    (∀ δ : ℚ, 0 ≤ δ → δ < 30 → house_of_planet ep ac (ascendant ep ac + δ) = 1) ∧
    (ascendant ep ac = 0 → 0 ≤ L → L < 360 → house_of_planet ep ac L = ⌊L / 30⌋ + 1) := by
  have hb : ∀ x : ℚ, 1 ≤ house_of_planet ep ac x ∧ house_of_planet ep ac x ≤ 12 := by
    intro x
    simp only [house_of_planet]
    have h0 := pymod_nonneg (x - ascendant ep ac) 360 (by norm_num)
    have h1 := pymod_lt (x - ascendant ep ac) 360 (by norm_num)
    have hf0 : 0 ≤ ⌊pymod (x - ascendant ep ac) 360 / 30⌋ :=
      Int.floor_nonneg.mpr (div_nonneg h0 (by norm_num))
    have hf1 : ⌊pymod (x - ascendant ep ac) 360 / 30⌋ < 12 := by
      refine Int.floor_lt.mpr ?_
      rw [div_lt_iff₀ (by norm_num : (0:ℚ) < 30)]
      push_cast
      linarith
    omega
  refine ⟨rfl, (hb L).1, (hb L).2, ?_, ?_⟩
  · intro δ h0 h1
    simp only [house_of_planet]
    have he : ascendant ep ac + δ - ascendant ep ac = δ := by ring
    rw [he, pymod_eq_self δ 360 (by norm_num) h0 (by linarith)]
    have hz : ⌊δ / 30⌋ = 0 := by
      rw [Int.floor_eq_zero_iff]
      exact Set.mem_Ico.mpr
        ⟨div_nonneg h0 (by norm_num), (div_lt_one (by norm_num)).mpr (by linarith)⟩
    omega
  · intro hA h0 h1
    simp only [house_of_planet]
    rw [hA, sub_zero, pymod_eq_self L 360 (by norm_num) h0 h1]

/-- C1 counterexample: with ascendant 0°, the longitude 360° is assigned house
1, not `⌊360/30⌋ + 1 = 13`, so the ascendant-zero identity of the claim fails
when quantified over all real longitudes. -/
theorem house_of_planet_spec_cex :
    ascendant (stubEph 0 0) stubCalc = 0 ∧
    house_of_planet (stubEph 0 0) stubCalc 360 = 1 ∧
    ⌊(360 : ℚ) / 30⌋ + 1 = 13 ∧
    house_of_planet (stubEph 0 0) stubCalc 360 ≠ ⌊(360 : ℚ) / 30⌋ + 1 := by
  norm_num [house_of_planet, ascendant, pymod, stubEph, stubCalc]

/-- C1 witness: concrete instance of `house_of_planet_spec` at ascendant 0°
and longitude 45°. -/
theorem house_of_planet_spec_witness :
    house_of_planet (stubEph 0 0) stubCalc (ascendant (stubEph 0 0) stubCalc + 15) = 1 ∧
    house_of_planet (stubEph 0 0) stubCalc 45 = ⌊(45 : ℚ) / 30⌋ + 1 := by
  obtain ⟨h1, h2, h3, h4, h5⟩ := house_of_planet_spec (stubEph 0 0) stubCalc 45
  refine ⟨h4 15 (by norm_num) (by norm_num), h5 ?_ (by norm_num) (by norm_num)⟩
  norm_num [ascendant, pymod, stubEph, stubCalc]

/-- C3: `ManglikRule.check` concludes "Manglik" and sets the `trigger` flag
exactly when Mars's house is in `{1, 2, 4, 7, 8, 12}`; in particular house 8
gives Manglik and house 9 gives Not Manglik. -/
theorem manglik_check_spec (ep : Ephemeris) (ac : AstroCalc) :
    ((ManglikRule.check ep ac).lookup "trigger" = some (PyVal.bool true) ↔
      house_of_planet ep ac (planet_longitudes ep ac Planet.Mars) ∈
        ManglikRule.TRIGGER_HOUSES) ∧
    ((ManglikRule.check ep ac).lookup "conclusion" = some (PyVal.str "Manglik") ↔
      house_of_planet ep ac (planet_longitudes ep ac Planet.Mars) ∈
        ManglikRule.TRIGGER_HOUSES) ∧
    (house_of_planet ep ac (planet_longitudes ep ac Planet.Mars) = 8 →
      (ManglikRule.check ep ac).lookup "conclusion" = some (PyVal.str "Manglik") ∧
      (ManglikRule.check ep ac).lookup "trigger" = some (PyVal.bool true)) ∧
    (house_of_planet ep ac (planet_longitudes ep ac Planet.Mars) = 9 →
      (ManglikRule.check ep ac).lookup "conclusion" = some (PyVal.str "Not Manglik") ∧
      (ManglikRule.check ep ac).lookup "trigger" = some (PyVal.bool false)) := by
  by_cases hm : house_of_planet ep ac (planet_longitudes ep ac Planet.Mars) ∈
    ManglikRule.TRIGGER_HOUSES
  · refine ⟨?_, ?_, fun _ => ?_, fun h9 => ?_⟩
    · simp [ManglikRule.check, List.lookup, hm]
    · simp [ManglikRule.check, List.lookup, hm]
    · simp [ManglikRule.check, List.lookup, hm]
    · rw [h9] at hm
      exact absurd hm (by decide)
  · refine ⟨?_, ?_, fun h8 => ?_, fun _ => ?_⟩
    · simp [ManglikRule.check, List.lookup, hm]
    · simp [ManglikRule.check, List.lookup, hm]
    · rw [h8] at hm
      exact absurd (by decide) hm
    · simp [ManglikRule.check, List.lookup, hm]

/-- C3 witness: with the deterministic stub provider putting Mars in house 8
the rule concludes Manglik, and in house 9 Not Manglik. -/
theorem manglik_check_spec_witness :
    (ManglikRule.check (stubEph 210 0) stubCalc).lookup "conclusion" =
      some (PyVal.str "Manglik") ∧
    (ManglikRule.check (stubEph 240 0) stubCalc).lookup "conclusion" =
      some (PyVal.str "Not Manglik") := by
  refine ⟨((manglik_check_spec (stubEph 210 0) stubCalc).2.2.1 ?_).1,
          ((manglik_check_spec (stubEph 240 0) stubCalc).2.2.2 ?_).1⟩
  · norm_num [house_of_planet, planet_longitudes, ascendant, pymod, stubEph, stubCalc]
  · norm_num [house_of_planet, planet_longitudes, ascendant, pymod, stubEph, stubCalc]

/-- C4: the Moon sign is the zodiac name at index `⌊moonLon/30⌋ % 12` in the
fixed list starting with Aries, partitioning `[0, 360)` into twelve 30° bands
in zodiac order. -/
theorem moon_sign_spec (ep : Ephemeris) (ac : AstroCalc) :
    (moon_sign ep ac).2 = planet_longitudes ep ac Planet.Moon ∧
    (moon_sign ep ac).1 = ZODIAC.getD (⌊(moon_sign ep ac).2 / 30⌋ % 12).toNat "" ∧
    (∀ k : ℕ, k < 12 → (30 : ℚ) * k ≤ (moon_sign ep ac).2 →
      (moon_sign ep ac).2 < 30 * (k + 1) → (moon_sign ep ac).1 = ZODIAC.getD k "") := by
  refine ⟨rfl, rfl, ?_⟩
  intro k hk h0 h1
  have hfl : ⌊(moon_sign ep ac).2 / 30⌋ = (k : ℤ) := by
    rw [Int.floor_eq_iff]
    constructor
    · rw [le_div_iff₀ (by norm_num : (0:ℚ) < 30)]
      push_cast
      linarith
    · rw [div_lt_iff₀ (by norm_num : (0:ℚ) < 30)]
      push_cast
      linarith
  have h2 : (moon_sign ep ac).1 = ZODIAC.getD (⌊(moon_sign ep ac).2 / 30⌋ % 12).toNat "" :=
    rfl
  rw [h2, hfl]
  congr 1
  omega

/-- C4 witness: stub Moon longitudes 45° and 15° resolve to the second and
first zodiac names. -/
theorem moon_sign_spec_witness :
    (moon_sign (stubEph 45 0) stubCalc).1 = ZODIAC.getD 1 "" ∧
    (moon_sign (stubEph 15 0) stubCalc).1 = ZODIAC.getD 0 "" ∧
    ZODIAC.getD 1 "" = "Taurus" ∧ ZODIAC.getD 0 "" = "Aries" := by
  refine ⟨(moon_sign_spec (stubEph 45 0) stubCalc).2.2 1 (by norm_num) ?_ ?_,
          (moon_sign_spec (stubEph 15 0) stubCalc).2.2 0 (by norm_num) ?_ ?_, rfl, rfl⟩
  · norm_num [moon_sign, planet_longitudes, pymod, stubEph, stubCalc]
  · norm_num [moon_sign, planet_longitudes, pymod, stubEph, stubCalc]
  · norm_num [moon_sign, planet_longitudes, pymod, stubEph, stubCalc]
  · norm_num [moon_sign, planet_longitudes, pymod, stubEph, stubCalc]

/-- Evaluation of the dasha quantities at Moon longitude 0. -/
theorem dasha_at_zero :
    VimshottariDasha.nak_index 0 = 0 ∧ VimshottariDasha.prop 0 = 0 ∧
    VimshottariDasha.first_lord 0 = "Ketu" ∧
    VimshottariDasha.remaining_years_first 0 = 7 := by
  have h1 : VimshottariDasha.nak_index 0 = 0 := by
    norm_num [VimshottariDasha.nak_index, VimshottariDasha.nak_deg]
  have h2 : VimshottariDasha.prop 0 = 0 := by
    norm_num [VimshottariDasha.prop, VimshottariDasha.deg_into_nak, h1]
  have h3 : VimshottariDasha.first_lord 0 = "Ketu" := by
    norm_num [VimshottariDasha.first_lord, VimshottariDasha.rotated, VimshottariDasha.rot,
      h1, VimshottariDasha.SEQUENCE]
  have h4 : VimshottariDasha.remaining_years_first 0 = 7 := by
    norm_num [VimshottariDasha.remaining_years_first, h2, h3, VimshottariDasha.LENGTHS]
  exact ⟨h1, h2, h3, h4⟩

/-- C2: `current_dasha` computes `nakshatraIndex = ⌊moonLon/(360/27)⌋ ∈ [0,26]`,
rotates the fixed 9-lord sequence cyclically left by `nakshatraIndex mod 9`,
reports the lord at position 0 as the current Mahadasha lord, and computes
`remainingYears = LENGTHS(lord) × (1 − proportion)` with
`proportion = degIntoNak / nakshatraWidth ∈ [0,1)`; at Moon longitude 0 the
lord is Ketu with 7 years remaining. -/
theorem current_dasha_spec (m : ℚ) (h0 : 0 ≤ m) (h1 : m < 360) :
    VimshottariDasha.nak_index m = ⌊m / (360 / 27)⌋ ∧
    0 ≤ VimshottariDasha.nak_index m ∧ VimshottariDasha.nak_index m ≤ 26 ∧
    0 ≤ VimshottariDasha.prop m ∧ VimshottariDasha.prop m < 1 ∧
    VimshottariDasha.prop m = VimshottariDasha.deg_into_nak m / (360 / 27) ∧
    (∀ i : ℕ, i < 9 →
      (VimshottariDasha.rotated m).getD i "" =
        VimshottariDasha.SEQUENCE.getD
          ((i + (VimshottariDasha.nak_index m % 9).toNat) % 9) "") ∧
    VimshottariDasha.first_lord m = (VimshottariDasha.rotated m).getD 0 "" ∧
    VimshottariDasha.first_lord m =
      VimshottariDasha.SEQUENCE.getD (VimshottariDasha.nak_index m % 9).toNat "" ∧
    (VimshottariDasha.current_dasha_of m).lookup "mahadasha" =
      some (PyVal.str (VimshottariDasha.first_lord m)) ∧
    VimshottariDasha.remaining_years_first m =
      VimshottariDasha.LENGTHS (VimshottariDasha.first_lord m) *
        (1 - VimshottariDasha.prop m) ∧
    (m = 0 → VimshottariDasha.nak_index m = 0 ∧ VimshottariDasha.prop m = 0 ∧
      VimshottariDasha.first_lord m = "Ketu" ∧
      VimshottariDasha.remaining_years_first m = 7) := by
  have hw : (0 : ℚ) < VimshottariDasha.nak_deg := by norm_num [VimshottariDasha.nak_deg]
  have hip : VimshottariDasha.prop m = Int.fract (m / VimshottariDasha.nak_deg) := by
    unfold VimshottariDasha.prop VimshottariDasha.deg_into_nak VimshottariDasha.nak_index
      Int.fract
    rw [sub_div, mul_div_cancel_right₀ _ hw.ne']
  have hr9 : (VimshottariDasha.nak_index m % 9).toNat < 9 := by omega
  have hrot : ∀ i : ℕ, i < 9 →
      (VimshottariDasha.rotated m).getD i "" =
        VimshottariDasha.SEQUENCE.getD
          ((i + (VimshottariDasha.nak_index m % 9).toNat) % 9) "" := by
    intro i hi
    simp only [VimshottariDasha.rotated, VimshottariDasha.rot]
    exact seq_rotation _ hr9 i hi
  refine ⟨rfl, ?_, ?_, ?_, ?_, rfl, hrot, rfl, ?_, ?_, rfl, ?_⟩
  · exact Int.floor_nonneg.mpr (div_nonneg h0 hw.le)
  · have : m / VimshottariDasha.nak_deg < 27 := by
      rw [div_lt_iff₀ hw]
      norm_num [VimshottariDasha.nak_deg]
      linarith
    have h27 := Int.floor_lt.mpr (show m / VimshottariDasha.nak_deg < ((27 : ℤ) : ℚ) by
      push_cast; linarith)
    unfold VimshottariDasha.nak_index
    omega
  · rw [hip]; exact Int.fract_nonneg _
  · rw [hip]; exact Int.fract_lt_one _
  · have := hrot 0 (by norm_num)
    rw [show (0 + (VimshottariDasha.nak_index m % 9).toNat) % 9 =
      (VimshottariDasha.nak_index m % 9).toNat by omega] at this
    exact this
  · simp [VimshottariDasha.current_dasha_of, List.lookup]
  · intro hm
    subst hm
    exact ⟨dasha_at_zero.1, dasha_at_zero.2.1, dasha_at_zero.2.2.1, dasha_at_zero.2.2.2⟩

/-- C2 witness: instance of `current_dasha_spec` at Moon longitude 0. -/
theorem current_dasha_spec_witness :
    VimshottariDasha.nak_index 0 = 0 ∧ VimshottariDasha.prop 0 = 0 ∧
    VimshottariDasha.first_lord 0 = "Ketu" ∧
    VimshottariDasha.remaining_years_first 0 = 7 :=
  (current_dasha_spec 0 (by norm_num) (by norm_num)).2.2.2.2.2.2.2.2.2.2.2 rfl

/-- C8 (amended): the dictionary returned by `current_dasha` carries exactly
the current lord name, the explanation string, and the Moon longitude; the
explanation contains the Moon longitude, nakshatra index, degrees into
nakshatra, lord, and remaining years (three decimals).  The remaining-years
value appears only inside the explanation text, not as a field of its own. -/
theorem dasha_output_spec (m : ℚ) :
    VimshottariDasha.current_dasha_of m =
      [("mahadasha", PyVal.str (VimshottariDasha.first_lord m)),
       ("explanation", PyVal.str (VimshottariDasha.explanation m)),
       ("moon_longitude", PyVal.num m)] ∧
    (∃ a b, VimshottariDasha.explanation m = a ++ fmt3 m ++ b) ∧
    (∃ a b, VimshottariDasha.explanation m =
      a ++ toString (VimshottariDasha.nak_index m) ++ b) ∧
    (∃ a b, VimshottariDasha.explanation m =
      a ++ fmt3 (VimshottariDasha.deg_into_nak m) ++ b) ∧
    (∃ a b, VimshottariDasha.explanation m = a ++ VimshottariDasha.first_lord m ++ b) ∧
    (∃ a b, VimshottariDasha.explanation m =
      a ++ fmt3 (VimshottariDasha.remaining_years_first m) ++ b) := by
  refine ⟨rfl, ?_, ?_, ?_, ?_, ?_⟩
  · exact ⟨"Moon longitude ",
      "째, nakshatra index " ++ toString (VimshottariDasha.nak_index m) ++
        ", degree into nakshatra " ++ fmt3 (VimshottariDasha.deg_into_nak m) ++ "째. " ++
        "Approx current Mahadasha lord (simplified) = " ++ VimshottariDasha.first_lord m ++
        ", remaining approx = " ++ fmt3 (VimshottariDasha.remaining_years_first m) ++
        " years.",
      by simp only [VimshottariDasha.explanation, String.append_assoc]⟩
  · exact ⟨"Moon longitude " ++ fmt3 m ++ "째, nakshatra index ",
      ", degree into nakshatra " ++ fmt3 (VimshottariDasha.deg_into_nak m) ++ "째. " ++
        "Approx current Mahadasha lord (simplified) = " ++ VimshottariDasha.first_lord m ++
        ", remaining approx = " ++ fmt3 (VimshottariDasha.remaining_years_first m) ++
        " years.",
      by simp only [VimshottariDasha.explanation, String.append_assoc]⟩
  · exact ⟨"Moon longitude " ++ fmt3 m ++ "째, nakshatra index " ++
        toString (VimshottariDasha.nak_index m) ++ ", degree into nakshatra ",
      "째. " ++ "Approx current Mahadasha lord (simplified) = " ++
        VimshottariDasha.first_lord m ++ ", remaining approx = " ++
        fmt3 (VimshottariDasha.remaining_years_first m) ++ " years.",
      by simp only [VimshottariDasha.explanation, String.append_assoc]⟩
  · exact ⟨"Moon longitude " ++ fmt3 m ++ "째, nakshatra index " ++
        toString (VimshottariDasha.nak_index m) ++ ", degree into nakshatra " ++
        fmt3 (VimshottariDasha.deg_into_nak m) ++ "째. " ++
        "Approx current Mahadasha lord (simplified) = ",
      ", remaining approx = " ++ fmt3 (VimshottariDasha.remaining_years_first m) ++
        " years.",
      by simp only [VimshottariDasha.explanation, String.append_assoc]⟩
  · exact ⟨"Moon longitude " ++ fmt3 m ++ "째, nakshatra index " ++
        toString (VimshottariDasha.nak_index m) ++ ", degree into nakshatra " ++
        fmt3 (VimshottariDasha.deg_into_nak m) ++ "째. " ++
        "Approx current Mahadasha lord (simplified) = " ++ VimshottariDasha.first_lord m ++
        ", remaining approx = ",
      " years.",
      by simp only [VimshottariDasha.explanation, String.append_assoc]⟩

/-- C8 counterexample: at the built chart with Moon longitude 0 the remaining
years value is 7, yet no entry of the returned dictionary carries the value 7
— the remaining years appear only as text inside the explanation string. -/
theorem dasha_output_cex :
    VimshottariDasha.remaining_years_first 0 = 7 ∧
    VimshottariDasha.current_dasha (stubEph 0 0) stubCalc =
      VimshottariDasha.current_dasha_of 0 ∧
    ∀ kv ∈ VimshottariDasha.current_dasha (stubEph 0 0) stubCalc,
      kv.2 ≠ PyVal.num 7 := by
  have hmoon : planet_longitudes (stubEph 0 0) stubCalc Planet.Moon = 0 := by
    norm_num [planet_longitudes, pymod, stubEph, stubCalc]
  refine ⟨dasha_at_zero.2.2.2, ?_, ?_⟩
  · unfold VimshottariDasha.current_dasha
    rw [hmoon]
  · intro kv hkv
    unfold VimshottariDasha.current_dasha at hkv
    rw [hmoon] at hkv
    simp only [VimshottariDasha.current_dasha_of, List.mem_cons, List.not_mem_nil,
      or_false] at hkv
    rcases hkv with rfl | rfl | rfl
    · simp
    · simp
    · simp only [ne_eq, PyVal.num.injEq]
      norm_num

/-- C9: chart building and the three rules are deterministic pure functions:
equal inputs and equal providers give identical charts and identical rule
results, and the values recomputed inside the rules agree with the chart's. -/
theorem core_deterministic (ep1 ep2 : Ephemeris) (ac1 ac2 : AstroCalc)
    (hep : ep1 = ep2) (hac : ac1 = ac2) :
    compute_all ep1 ac1 = compute_all ep2 ac2 ∧
    ManglikRule.check ep1 ac1 = ManglikRule.check ep2 ac2 ∧
    MoonSignRule.get ep1 ac1 = MoonSignRule.get ep2 ac2 ∧
    VimshottariDasha.current_dasha ep1 ac1 = VimshottariDasha.current_dasha ep2 ac2 ∧
    (ManglikRule.check ep1 ac1).lookup "mars_house" =
      some (PyVal.int ((compute_all ep1 ac1).houses Planet.Mars)) ∧
    (ManglikRule.check ep1 ac1).lookup "mars_longitude" =
      some (PyVal.num ((compute_all ep1 ac1).planetary_longitudes Planet.Mars)) ∧
    (VimshottariDasha.current_dasha ep1 ac1).lookup "moon_longitude" =
      some (PyVal.num ((compute_all ep1 ac1).moon_longitude)) ∧
    (MoonSignRule.get ep1 ac1).lookup "moon_sign" =
      some (PyVal.str ((compute_all ep1 ac1).moon_sign)) := by
  subst hep
  subst hac
  refine ⟨rfl, rfl, rfl, rfl, ?_, ?_, ?_, ?_⟩
  · simp [ManglikRule.check, List.lookup, compute_all]
  · simp [ManglikRule.check, List.lookup, compute_all]
  · simp [VimshottariDasha.current_dasha, VimshottariDasha.current_dasha_of, List.lookup,
      compute_all, moon_sign]
  · simp [MoonSignRule.get, List.lookup, compute_all, moon_sign]

/-- C9 witness: instance of `core_deterministic` at the deterministic stub. -/
theorem core_deterministic_witness :
    compute_all (stubEph 0 0) stubCalc = compute_all (stubEph 0 0) stubCalc ∧
    ManglikRule.check (stubEph 0 0) stubCalc = ManglikRule.check (stubEph 0 0) stubCalc :=
  ⟨(core_deterministic (stubEph 0 0) (stubEph 0 0) stubCalc stubCalc rfl rfl).1,
   (core_deterministic (stubEph 0 0) (stubEph 0 0) stubCalc stubCalc rfl rfl).2.1⟩

/-- C5 (amended): for every parsed and calendar-valid birth date, time, and
timezone offset, the conversion subtracts the offset as a full duration from
the local calendar datetime; whenever the subtraction stays within Python's
supported calendar range (result ordinal in `1..3652059`, i.e. years 1–9999)
it yields a field-valid universal-time datetime — rolling the calendar date
as needed, witnessed by the total-minutes equation — which is fed to the
Julian Day conversion with fractional hours `hour + minute/60`; when the
result leaves that range, line 145 raises `OverflowError` and no chart is
produced.  In particular 2006-10-12 20:27 at offset 5.5 gives UT
2006-10-12 14:57. -/
theorem compute_julian_day_spec (b : Birth) (y mo d h mi : ℤ)
    (hd : parseYMD b.date = some (y, mo, d)) (ht : parseHM b.time = some (h, mi))
    (hv : datetimeValid y mo d h mi) :
    (∀ r : PyDatetime, dtSub ⟨y, mo, d, h, mi⟩ (b.tz.getD 0) = some r →
      computeJulianDay b = Except.ok
        ⟨sweJulday r.year r.month r.day ((r.hour : ℚ) + (r.minute : ℚ) / 60),
          b.lat, b.lon⟩ ∧
      ymd2ord r.year r.month r.day * 1440 + r.hour * 60 + r.minute =
        ⌊((ymd2ord y mo d * 1440 + h * 60 + mi : ℤ) : ℚ) - (b.tz.getD 0) * 60⌋ ∧
      1 ≤ r.month ∧ r.month ≤ 12 ∧
      1 ≤ r.day ∧ r.day ≤ daysInMonth r.year r.month ∧
      0 ≤ r.hour ∧ r.hour ≤ 23 ∧
      0 ≤ r.minute ∧ r.minute ≤ 59) ∧
    (dtSub ⟨y, mo, d, h, mi⟩ (b.tz.getD 0) = none →
      computeJulianDay b = Except.error PyError.overflowError) ∧
    dtSub ⟨2006, 10, 12, 20, 27⟩ (11 / 2) = some ⟨2006, 10, 12, 14, 57⟩ ∧
    parseYMD "2006-10-12" = some (2006, 10, 12) ∧
    parseHM "20:27" = some (20, 27) := by
  refine ⟨?_, ?_, ?_, by decide, by decide⟩
  · intro r hsub
    obtain ⟨s1, s2, s3, s4, s5, s6, s7, s8, s9⟩ :=
      dtSub_spec ⟨y, mo, d, h, mi⟩ (b.tz.getD 0) r hsub
    refine ⟨?_, s1, s2, s3, s4, s5, s6, s7, s8, s9⟩
    simp only [computeJulianDay, hd, ht]
    rw [if_pos hv, hsub]
  · intro hnone
    simp only [computeJulianDay, hd, ht]
    rw [if_pos hv, hnone]
  · norm_num [dtSub, ymd2ord, daysBeforeYear, dbmTable, isLeap, ord2ymd, n400, nA, n100,
      nB, n4, nC, n1, nD, yearRaw, leapB, monthEst, precedingEst, monthFix, precedingFix,
      dimTable]

/-- The birth dictionary of the source's own `__main__` example. -/
def birthExample : Birth := ⟨"2006-10-12", "20:27", 28.6139, 77.209, some (11 / 2)⟩

/-- C5 counterexample: at birth date 0001-01-01, time 00:00, offset 5.5 — a
parseable, calendar-valid local datetime with an ordinary positive offset —
the subtraction leaves Python's supported calendar range, so line 145 raises
`OverflowError` and no universal-time datetime or Julian Day is produced,
where the claim promises the conversion for every valid date, time, and
offset. -/
theorem compute_julian_day_spec_cex :
    parseYMD "0001-01-01" = some (1, 1, 1) ∧
    parseHM "00:00" = some (0, 0) ∧
    datetimeValid 1 1 1 0 0 ∧
    computeJulianDay ⟨"0001-01-01", "00:00", 0, 0, some (11 / 2)⟩ =
      Except.error PyError.overflowError := by
  refine ⟨by decide, by decide, by decide, ?_⟩
  have hd : parseYMD "0001-01-01" = some (1, 1, 1) := by decide
  have ht : parseHM "00:00" = some (0, 0) := by decide
  have htz : ((⟨"0001-01-01", "00:00", 0, 0, some (11 / 2)⟩ : Birth).tz.getD 0) =
      (11 : ℚ) / 2 := rfl
  have hsub : dtSub ⟨1, 1, 1, 0, 0⟩ ((11 : ℚ) / 2) = none := by
    norm_num [dtSub, ymd2ord, daysBeforeYear, dbmTable, isLeap]
  simp only [computeJulianDay, hd, ht, htz]
  rw [if_pos (show datetimeValid 1 1 1 0 0 by decide), hsub]

/-- C5 witness: `compute_julian_day_spec` at the source's example birth,
through the in-range branch. -/
theorem compute_julian_day_spec_witness :
    dtSub ⟨2006, 10, 12, 20, 27⟩ (11 / 2) = some ⟨2006, 10, 12, 14, 57⟩ ∧
    computeJulianDay birthExample = Except.ok
      ⟨sweJulday 2006 10 12 ((14 : ℚ) + (57 : ℚ) / 60),
        birthExample.lat, birthExample.lon⟩ := by
  have H := compute_julian_day_spec birthExample 2006 10 12 20 27 (by decide) (by decide)
    (by decide)
  have hsub : dtSub ⟨2006, 10, 12, 20, 27⟩ (birthExample.tz.getD 0) =
      some ⟨2006, 10, 12, 14, 57⟩ := H.2.2.1
  refine ⟨H.2.2.1, ?_⟩
  have h1 := (H.1 ⟨2006, 10, 12, 14, 57⟩ hsub).1
  rw [h1]
  norm_num

/-- C7 (amended): chart construction fails, with Python's single generic
`ValueError`, exactly on the inputs whose date or time string does not parse
to integers of the right arity or whose components form an impossible
calendar datetime; no chart is produced on such inputs. -/
theorem julian_day_error_spec (b : Birth) :
    validParse b = false ↔ computeJulianDay b = Except.error PyError.valueError := by
  unfold validParse computeJulianDay
  rcases hd : parseYMD b.date with _ | ⟨y, mo, d⟩
  · simp
  · rcases ht : parseHM b.time with _ | ⟨h, mi⟩
    · simp
    · by_cases hv : datetimeValid y mo d h mi
      · rcases hsub : dtSub ⟨y, mo, d, h, mi⟩ (b.tz.getD 0) with _ | r <;>
          simp [hv, hsub]
      · simp [hv]

/-- C7 counterexample: an impossible month, an impossible time, and an
impossible February day all produce the same single error value — the code
does not raise distinct `InvalidDateFormat` / `InvalidTimeFormat` kinds, only
`ValueError`. -/
theorem julian_day_error_kinds_cex :
    computeJulianDay ⟨"2020-13-01", "10:00", 0, 0, some 0⟩ =
      Except.error PyError.valueError ∧
    computeJulianDay ⟨"2020-01-01", "25:00", 0, 0, some 0⟩ =
      Except.error PyError.valueError ∧
    computeJulianDay ⟨"2020-02-30", "10:00", 0, 0, some 0⟩ =
      Except.error PyError.valueError ∧
    computeJulianDay ⟨"2020-13-01", "10:00", 0, 0, some 0⟩ =
      computeJulianDay ⟨"2020-01-01", "25:00", 0, 0, some 0⟩ := by
  exact ⟨rfl, rfl, rfl, rfl⟩

/-- C10: when the birth dictionary has no `tz` entry, chart construction does
not fail on that account: the offset defaults to 0.0, so the result is the
same as with an explicit zero offset, and parsing-valid inputs still yield a
chart. -/
theorem tz_default_spec (b : Birth) (htz : b.tz = none) :
    computeJulianDay b = computeJulianDay ⟨b.date, b.time, b.lat, b.lon, some 0⟩ ∧
    (validParse b = true → ∃ ac, computeJulianDay b = Except.ok ac) := by
  constructor
  · have h0 : b.tz.getD 0 = (0 : ℚ) := by rw [htz]; rfl
    unfold computeJulianDay
    dsimp only
    rw [h0, show ((some (0 : ℚ)).getD 0) = (0 : ℚ) from rfl]
  · intro hg
    unfold validParse at hg
    rcases hd : parseYMD b.date with _ | ⟨y, mo, d⟩ <;> rw [hd] at hg
    · simp at hg
    · rcases ht : parseHM b.time with _ | ⟨h, mi⟩ <;> rw [ht] at hg
      · simp at hg
      · rw [decide_eq_true_eq] at hg
        have hval := hg
        unfold datetimeValid at hval
        obtain ⟨v1, v2, v3, v4, v5, v6, v7, v8, v9, v10⟩ := hval
        have hb := ymd2ord_bounds y mo d v1 v2 v3 v4 v5 v6
        have htz0 : b.tz.getD 0 = (0 : ℚ) := by rw [htz]; rfl
        have hfl : ⌊(((ymd2ord y mo d * 1440 + h * 60 + mi : ℤ) : ℚ) - 0 * 60) / 1440⌋ =
            ymd2ord y mo d := by
          have hh0 : (0 : ℚ) ≤ (h : ℚ) := by exact_mod_cast v7
          have hh1 : (h : ℚ) ≤ 23 := by exact_mod_cast v8
          have hm0 : (0 : ℚ) ≤ (mi : ℚ) := by exact_mod_cast v9
          have hm1 : (mi : ℚ) ≤ 59 := by exact_mod_cast v10
          rw [Int.floor_eq_iff]
          push_cast
          constructor
          · rw [le_div_iff₀ (by norm_num : (0 : ℚ) < 1440)]
            linarith
          · rw [div_lt_iff₀ (by norm_num : (0 : ℚ) < 1440)]
            linarith
        simp only [computeJulianDay, hd, ht, htz0]
        rw [if_pos hg]
        simp only [dtSub]
        rw [hfl]
        rw [if_pos (show (0 : ℤ) < ymd2ord y mo d ∧ ymd2ord y mo d ≤ 3652059 from
          ⟨by omega, hb.2⟩)]
        exact ⟨_, rfl⟩

/-- C10 witness: `tz_default_spec` at a concrete birth without a `tz` entry. -/
theorem tz_default_spec_witness :
    computeJulianDay ⟨"2006-10-12", "20:27", 0, 0, none⟩ =
      computeJulianDay ⟨"2006-10-12", "20:27", 0, 0, some 0⟩ ∧
    ∃ ac, computeJulianDay ⟨"2006-10-12", "20:27", 0, 0, none⟩ = Except.ok ac := by
  have H := tz_default_spec ⟨"2006-10-12", "20:27", 0, 0, none⟩ rfl
  exact ⟨H.1, H.2 (by decide)⟩
